import Mathlib

set_option autoImplicit false

/-! Shallow embedding of the concurrency, scheduling and lifecycle engine of the
ffmpeg_professional repository: the priority thread pool
(include/common/threadpool.h and src/common/threadpool.cpp), the BaseStream,
PullStream and PushStream state machines with their bounded frame queues
(src/ffmpeg_base), the StreamProcessor variant (src/ffmpeg_base/stream_processor.cpp)
and the forwarding task (src/common/stream_task.cpp).  Frames are identified by
natural numbers; the outcome of each external FFmpeg call is passed in as an
explicit parameter.  Timing, logging, mutexes and condition variables are not
modelled: operations are interleaved atomically, which matches the lock
discipline of the source (each modelled operation holds the relevant lock). -/

/-- Task priorities of the pool, in C++ declaration order, so the underlying
enum values are HIGH = 0, NORMAL = 1, LOW = 2 (include/common/threadpool.h). -/
inductive TaskPriority
  | HIGH
  | NORMAL
  | LOW
deriving DecidableEq

/-- Underlying integer value of the C++ enum class TaskPriority. -/
def TaskPriority.toNat : TaskPriority → Nat
  | .HIGH => 0
  | .NORMAL => 1
  | .LOW => 2

/-- ThreadPool::TaskWrapper: a priority together with the wrapped runnable,
identified here by a number. -/
structure TaskWrapper where
  priority : TaskPriority
  taskId : Nat
deriving DecidableEq

/-- TaskWrapper comparison operator from include/common/threadpool.h lines
103-106: `return priority < other.priority;`, comparing the underlying enum
values (HIGH = 0 is the least element, LOW = 2 the greatest). -/
def twLt (a b : TaskWrapper) : Bool :=
  a.priority.toNat < b.priority.toNat

/-- top() of std::priority_queue over TaskWrapper: the heap invariant makes the
top a greatest element with respect to twLt; which of several tied greatest
elements is on top is unspecified by the C++ standard, so the model returns the
earliest-pushed greatest element.  The backing list stores tasks in push
order. -/
def pqTop : List TaskWrapper → Option TaskWrapper
  | [] => none
  | x :: xs =>
    match pqTop xs with
    | none => some x
    | some m => if twLt x m then some m else some x

/-- pop() of the priority queue: removes the element that pqTop returns. -/
def pqPop : List TaskWrapper → List TaskWrapper
  | [] => []
  | x :: xs =>
    match pqTop xs with
    | none => []
    | some m => if twLt x m then x :: pqPop xs else xs

/-- Repeatedly dequeue the top task, with explicit fuel. -/
def pqDrainAux : Nat → List TaskWrapper → List TaskWrapper
  | 0, _ => []
  | Nat.succ n, q =>
    match pqTop q with
    | none => []
    | some t => t :: pqDrainAux n (pqPop q)

/-- The order in which a single worker that is never interrupted executes all
currently queued tasks: ThreadPool::workerThread repeatedly takes tasks_.top()
and calls tasks_.pop() (src/common/threadpool.cpp lines 59-61). -/
def pqDrain (q : List TaskWrapper) : List TaskWrapper :=
  pqDrainAux q.length q

/-- ThreadPool::enqueue (include/common/threadpool.h lines 134-169): under the
queue mutex, if stop_ is set it throws a runtime error without touching the
queue; otherwise it pushes the wrapped task.  The thrown error is delivered to
the submitting caller as the model error value. -/
def ThreadPool.enqueue (stopFlag : Bool) (tasks : List TaskWrapper) (w : TaskWrapper) :
    Except String Unit × List TaskWrapper :=
  if stopFlag then (Except.error "Enqueue on stopped ThreadPool", tasks)
  else (Except.ok (), tasks ++ [w])

/-- One dequeue step of ThreadPool::workerThread: the task taken and the
remaining queue. -/
def workerDequeue (tasks : List TaskWrapper) : Option TaskWrapper × List TaskWrapper :=
  (pqTop tasks, pqPop tasks)

/-- Stream lifecycle states (include/config/stream_types.h). -/
inductive StreamState
  | INIT
  | CONNECTING
  | CONNECTED
  | DISCONNECTED
  | RECONNECTING
  | ERROR
  | STOPPED
deriving DecidableEq

/-- Stream roles (include/config/stream_types.h). -/
inductive StreamType
  | PULL
  | PUSH
deriving DecidableEq

/-- The fields of StreamConfig (include/config/stream_types.h) that the
lifecycle, reconnect and queue logic reads.  Codec and video parameters are
elided because no modelled operation inspects them. -/
structure StreamConfig where
  type : StreamType
  max_reconnect_attempts : Nat
  reconnect_delay_ms : Nat
  auto_reconnect : Bool
  low_latency : Bool
  max_queue_size : Nat
deriving DecidableEq

/-- Mutable runtime data of BaseStream, PullStream and PushStream
(include/ffmpeg_base/base_stream.h).  threads_spawned counts constructions of
the dedicated std::thread by start(), so claims about thread counts can be
stated; fps bookkeeping and timestamps are elided. -/
structure BaseStream where
  config : StreamConfig
  state : StreamState
  running : Bool
  error_message : String
  reconnect_count : Nat
  frame_queue : List Nat
  threads_spawned : Nat
deriving DecidableEq

/-- BaseStream::setState (src/ffmpeg_base/base_stream.cpp lines 57-62). -/
def setState (s : BaseStream) (st : StreamState) : BaseStream :=
  { s with state := st }

/-- BaseStream::setError (src/ffmpeg_base/base_stream.cpp lines 65-70): records
the message and moves the stream to ERROR. -/
def setError (s : BaseStream) (msg : String) : BaseStream :=
  setState { s with error_message := msg } StreamState.ERROR

/-- BaseStream::resetReconnectCount (src/ffmpeg_base/base_stream.cpp 136-138). -/
def resetReconnectCount (s : BaseStream) : BaseStream :=
  { s with reconnect_count := 0 }

/-- BaseStream::stop (src/ffmpeg_base/base_stream.cpp lines 110-113): clears the
running flag and sets the state to STOPPED, unconditionally. -/
def baseStop (s : BaseStream) : BaseStream :=
  setState { s with running := false } StreamState.STOPPED

/-- BaseStream::reconnect (src/ffmpeg_base/base_stream.cpp lines 116-133):
rejected when STOPPED; terminal error once the attempt bound is reached;
otherwise increments the counter and moves to RECONNECTING. -/
def reconnect (s : BaseStream) : Bool × BaseStream :=
  if s.state = StreamState.STOPPED then (false, s)
  else if s.config.max_reconnect_attempts ≤ s.reconnect_count then
    (false, setError s "max reconnect attempts reached")
  else
    (true, setState { s with reconnect_count := s.reconnect_count + 1 }
      StreamState.RECONNECTING)

/-- PullStream::closeStream and PushStream::closeStream release the format
context and free every queued frame (src/ffmpeg_base/pull_stream.cpp 129-141,
src/ffmpeg_base/push_stream.cpp 155-176): the frame queue becomes empty. -/
def closeStream (s : BaseStream) : BaseStream :=
  { s with frame_queue := [] }

/-- The enqueue step of the PullStream main loop for one decoded frame
(src/ffmpeg_base/pull_stream.cpp lines 216-241): when the queue has reached
max_queue_size and the stream is running, low-latency mode discards every
queued frame while standard mode frees and pops only the oldest; then the new
frame is pushed when the stream is still running, else it is freed.  The C++
standard-mode eviction reads the front of the queue, which is only well defined
when the queue is non-empty; with max_queue_size equal to 0 and an empty queue
the source has undefined behaviour, so theorems assume max_queue_size is at
least 1. -/
def pullQueuePush (s : BaseStream) (f : Nat) : BaseStream :=
  let q1 :=
    if s.config.max_queue_size ≤ s.frame_queue.length ∧ s.running = true then
      if s.config.low_latency = true then [] else s.frame_queue.tail
    else s.frame_queue
  if s.running = true then { s with frame_queue := q1 ++ [f] }
  else { s with frame_queue := q1 }

/-- The unchecked push of the decoder flush drain that runs after the PullStream
main loop exits with running still set (src/ffmpeg_base/pull_stream.cpp lines
252-264): no capacity test is performed. -/
def pullFlushPush (s : BaseStream) (f : Nat) : BaseStream :=
  if s.running = true then { s with frame_queue := s.frame_queue ++ [f] } else s

/-- PullStream::getFrame (src/ffmpeg_base/pull_stream.cpp lines 301-325): when
the queue is empty the wait either times out or is cut short by a stop and the
call returns nothing (frame arrivals during the wait are delivered by a later
call in this interleaved model); otherwise the front frame is popped. -/
def getFrame (s : BaseStream) : Option Nat × BaseStream :=
  match s.frame_queue with
  | [] => (none, s)
  | f :: rest => (some f, { s with frame_queue := rest })

/-- PushStream::sendFrame (src/ffmpeg_base/push_stream.cpp lines 346-370):
rejected without enqueueing unless running and CONNECTED; in low-latency mode a
full queue is cleared first; the frame is then pushed.  Standard mode performs
no eviction at all. -/
def sendFrame (s : BaseStream) (f : Nat) : Bool × BaseStream :=
  if s.running = false ∨ s.state ≠ StreamState.CONNECTED then (false, s)
  else
    let q1 :=
      if s.config.low_latency = true ∧ s.config.max_queue_size ≤ s.frame_queue.length then []
      else s.frame_queue
    (true, { s with frame_queue := q1 ++ [f] })

/-- Possible outcomes of PullStream::initStream (src/ffmpeg_base/pull_stream.cpp
lines 25-126), one per early-exit point of the source: alloc_fail happens before
setState(CONNECTING), the remaining failures after it; success ends with
setState(CONNECTED) followed by resetReconnectCount. -/
inductive InitOutcome
  | alloc_fail
  | open_fail
  | info_fail
  | no_video
  | decoder_init_fail
  | decoder_param_fail
  | success
deriving DecidableEq

/-- PullStream::initStream modelled on the outcome parameter: every failure
path calls setError (state ERROR) and leaves the reconnect counter untouched;
the success path passes through CONNECTING, reaches CONNECTED and resets the
reconnect counter. -/
def initStream (o : InitOutcome) (s : BaseStream) : Bool × BaseStream :=
  match o with
  | .alloc_fail => (false, setError s "cannot allocate input context")
  | .open_fail => (false, setError (setState s StreamState.CONNECTING) "cannot open input")
  | .info_fail => (false, setError (setState s StreamState.CONNECTING) "cannot get stream info")
  | .no_video => (false, setError (setState s StreamState.CONNECTING) "no video stream found")
  | .decoder_init_fail =>
    (false, setError (setState s StreamState.CONNECTING) "cannot initialize decoder")
  | .decoder_param_fail =>
    (false, setError (setState s StreamState.CONNECTING) "cannot set decoder parameters")
  | .success =>
    (true, resetReconnectCount (setState (setState s StreamState.CONNECTING)
      StreamState.CONNECTED))

/-- Possible outcomes of PushStream::initStream (src/ffmpeg_base/push_stream.cpp
lines 24-152): bad_url fails before setState(CONNECTING), the remaining
failures after it; success sets muxing_ready, reaches CONNECTED and resets the
reconnect counter. -/
inductive PushInitOutcome
  | bad_url
  | ctx_fail
  | stream_fail
  | encoder_fail
  | io_open_fail
  | header_fail
  | success
deriving DecidableEq

/-- PushStream::initStream modelled on the outcome parameter. -/
def pushInitStream (o : PushInitOutcome) (s : BaseStream) : Bool × BaseStream :=
  match o with
  | .bad_url => (false, setError s "unsupported URL format")
  | .ctx_fail => (false, setError (setState s StreamState.CONNECTING) "cannot create output context")
  | .stream_fail => (false, setError (setState s StreamState.CONNECTING) "cannot create video stream")
  | .encoder_fail => (false, setError (setState s StreamState.CONNECTING) "cannot initialize encoder")
  | .io_open_fail => (false, setError (setState s StreamState.CONNECTING) "cannot open output file")
  | .header_fail => (false, setError (setState s StreamState.CONNECTING) "cannot write header")
  | .success =>
    (true, resetReconnectCount (setState (setState s StreamState.CONNECTING)
      StreamState.CONNECTED))

/-- PullStream::start (src/ffmpeg_base/pull_stream.cpp lines 271-279): returns
true immediately when already running; otherwise sets the running flag and
constructs the dedicated std::thread. -/
def pullStart (s : BaseStream) : Bool × BaseStream :=
  if s.running = true then (true, s)
  else (true, { s with running := true, threads_spawned := s.threads_spawned + 1 })

/-- PushStream::start (src/ffmpeg_base/push_stream.cpp lines 316-324), textually
identical to PullStream::start. -/
def pushStart (s : BaseStream) : Bool × BaseStream :=
  if s.running = true then (true, s)
  else (true, { s with running := true, threads_spawned := s.threads_spawned + 1 })

/-- PullStream::stop (src/ffmpeg_base/pull_stream.cpp lines 282-298): early
return when not running; otherwise clear the running flag, notify the queue
waiters, join the dedicated thread, closeStream (which empties the queue) and
call BaseStream::stop, which sets the state to STOPPED. -/
def pullStop (s : BaseStream) : BaseStream :=
  if s.running = false then s
  else baseStop (closeStream { s with running := false })

/-- PushStream::stop (src/ffmpeg_base/push_stream.cpp lines 327-343), textually
identical to PullStream::stop. -/
def pushStop (s : BaseStream) : BaseStream :=
  if s.running = false then s
  else baseStop (closeStream { s with running := false })

/-- One av_read_frame result of the PullStream main loop
(src/ffmpeg_base/pull_stream.cpp lines 165-249): end of file (the source seeks
back and continues), a read error (carrying the outcome of the re-init attempt
taken when auto reconnect lets the loop try again), a packet of the video
stream from which the decoder produced zero or one frame, or a packet of
another stream. -/
inductive ReadEvent
  | eof
  | read_error (reinit : InitOutcome)
  | video_packet (frame : Option Nat)
  | other_packet
deriving DecidableEq

/-- The PullStream main loop (src/ffmpeg_base/pull_stream.cpp lines 165-249)
over an explicit list of read results.  A read error sets DISCONNECTED and, when
auto_reconnect is on, runs BaseStream::reconnect; on acceptance the stream is
closed, the loop sleeps reconnect_delay_ms and re-runs initStream, continuing
only on success.  Every other exit breaks out of the loop. -/
def pullLoop (s : BaseStream) : List ReadEvent → BaseStream
  | [] => s
  | e :: es =>
    if s.running = false then s
    else
      match e with
      | .eof => pullLoop s es
      | .other_packet => pullLoop s es
      | .video_packet none => pullLoop s es
      | .video_packet (some f) => pullLoop (pullQueuePush s f) es
      | .read_error reinit =>
        let s1 := setState s StreamState.DISCONNECTED
        if s1.config.auto_reconnect = true then
          match reconnect s1 with
          | (true, s2) =>
            match initStream reinit (closeStream s2) with
            | (true, s4) => pullLoop s4 es
            | (false, s4) => s4
          | (false, s2) => s2
        else s1

/-- PullStream::streamThread (src/ffmpeg_base/pull_stream.cpp lines 144-268):
after the entry log, a low-latency configuration returns at once, before
initStream and before any state change; otherwise the stream is initialised,
the main loop runs, the decoder flush drain pushes its remaining frames while
the stream is still running, and closeStream empties the queue.  Packet
allocation failure is not modelled. -/
def pullStreamThread (o : InitOutcome) (events : List ReadEvent) (flushFrames : List Nat)
    (s : BaseStream) : BaseStream :=
  if s.config.low_latency = true then s
  else
    match initStream o s with
    | (false, s1) => s1
    | (true, s1) => closeStream (flushFrames.foldl pullFlushPush (pullLoop s1 events))

/-- One iteration result of the PushStream main loop once a frame has been
popped (src/ffmpeg_base/push_stream.cpp lines 199-288): the encoder failed for
this frame (the loop continues), the packet was written, or the write failed
(carrying the outcome of the re-init attempt taken when auto reconnect lets the
loop try again). -/
inductive PushEvent
  | encode_fail
  | write_ok
  | write_error (reinit : PushInitOutcome)
deriving DecidableEq

/-- The PushStream main loop (src/ffmpeg_base/push_stream.cpp lines 199-288)
over an explicit list of per-frame results: an empty queue waits and retries,
a popped frame is encoded and written, and a write error follows the same
reconnect dance as the pull loop. -/
def pushLoop (s : BaseStream) : List PushEvent → BaseStream
  | [] => s
  | e :: es =>
    if s.running = false then s
    else
      match s.frame_queue with
      | [] => pushLoop s es
      | _ :: rest =>
        let s1 := { s with frame_queue := rest }
        match e with
        | .encode_fail => pushLoop s1 es
        | .write_ok => pushLoop s1 es
        | .write_error reinit =>
          let s2 := setState s1 StreamState.DISCONNECTED
          if s2.config.auto_reconnect = true then
            match reconnect s2 with
            | (true, s3) =>
              match pushInitStream reinit (closeStream s3) with
              | (true, s5) => pushLoop s5 es
              | (false, s5) => s5
            | (false, s3) => s3
          else s2

/-- PushStream::streamThread (src/ffmpeg_base/push_stream.cpp lines 179-313):
after the entry log, a low-latency configuration returns at once, before
initStream and before any state change; otherwise the stream is initialised,
the main loop runs, the encoder is flushed (writing packets, not touching the
frame queue) and closeStream empties the queue. -/
def pushStreamThread (o : PushInitOutcome) (events : List PushEvent) (s : BaseStream) :
    BaseStream :=
  if s.config.low_latency = true then s
  else
    match pushInitStream o s with
    | (false, s1) => s1
    | (true, s1) => closeStream (pushLoop s1 events)

/-- Processor lifecycle states (include/common/common.h lines 22-29): the
StreamProcessor family has no INIT state; a fresh processor starts
DISCONNECTED. -/
inductive StreamStatus
  | DISCONNECTED
  | CONNECTING
  | CONNECTED
  | RECONNECTING
  | ERROR
  | STOPPED
deriving DecidableEq

/-- The fields of the processor-family StreamConfig (include/config/config.h)
that the lifecycle logic reads. -/
structure ProcConfig where
  type : StreamType
  maxReconnects : Nat
  reconnectDelay : Nat
deriving DecidableEq

/-- Mutable runtime data of StreamProcessor
(include/ffmpeg_base/stream_processor.h): status, running flag and reconnect
counter; the processor owns no dedicated thread and no frame queue. -/
structure StreamProcessor where
  config : ProcConfig
  status : StreamStatus
  running : Bool
  reconnectCount : Nat
deriving DecidableEq

/-- StreamProcessor::setStatus (src/ffmpeg_base/stream_processor.cpp 257-268);
the lastActiveTime update and the status callback are not modelled. -/
def StreamProcessor.setStatus (p : StreamProcessor) (st : StreamStatus) : StreamProcessor :=
  { p with status := st }

/-- StreamProcessor::start (src/ffmpeg_base/stream_processor.cpp lines 41-66):
warns and returns false when already running; otherwise sets the running flag,
zeroes the reconnect counter, moves to CONNECTING and opens the input (and, for
push, the output).  The openInput and openOutput outcomes are parameters; on
failure those functions set the status to ERROR themselves before returning
false.  Success ends at CONNECTED. -/
def StreamProcessor.start (openInputOk openOutputOk : Bool) (p : StreamProcessor) :
    Bool × StreamProcessor :=
  if p.running = true then (false, p)
  else
    let p1 := { p with running := true, reconnectCount := 0, status := StreamStatus.CONNECTING }
    if p1.config.type = StreamType.PULL then
      if openInputOk = true then (true, p1.setStatus StreamStatus.CONNECTED)
      else (false, p1.setStatus StreamStatus.ERROR)
    else
      if openInputOk = true ∧ openOutputOk = true then (true, p1.setStatus StreamStatus.CONNECTED)
      else (false, p1.setStatus StreamStatus.ERROR)

/-- StreamProcessor::stop (src/ffmpeg_base/stream_processor.cpp lines 68-72). -/
def StreamProcessor.stop (p : StreamProcessor) : StreamProcessor :=
  ({ p with running := false }).setStatus StreamStatus.STOPPED

/-- StreamProcessor::handleReconnect (src/ffmpeg_base/stream_processor.cpp
lines 228-247): when the processor is not running or the counter has reached
maxReconnects, the status is set to STOPPED, the running flag is cleared and
the call fails; otherwise the counter is incremented, the status becomes
RECONNECTING and, after cleanup and the delay, start() is re-invoked — which
rejects immediately because the running flag is still set. -/
def StreamProcessor.handleReconnect (openInputOk openOutputOk : Bool) (p : StreamProcessor) :
    Bool × StreamProcessor :=
  if p.running = false ∨ p.config.maxReconnects ≤ p.reconnectCount then
    (false, { p.setStatus StreamStatus.STOPPED with running := false })
  else
    StreamProcessor.start openInputOk openOutputOk
      (({ p with reconnectCount := p.reconnectCount + 1 }).setStatus StreamStatus.RECONNECTING)

/-- Runtime data of ForwardStreamTask (include/common/stream_task.h): the
running flag of the StreamTask base, the relayed-frame counter and the
zero-copy flag.  The referenced pull and push streams are passed to execute
explicitly. -/
structure ForwardStreamTask where
  task_id : Nat
  is_running : Bool
  frame_count : Nat
  zero_copy_mode : Bool
deriving DecidableEq

/-- ForwardStreamTask::execute (src/common/stream_task.cpp lines 118-157): do
nothing unless the task runs and both streams are CONNECTED; pop one frame from
the pull stream with a 30 ms timeout; if a frame was obtained, hand it to the
push stream — directly in zero-copy mode, or as an av_frame_ref duplicate in
copy mode — and increment frame_count exactly when sendFrame accepted it.  The
null-stream guard and av_frame_alloc failure in copy mode are not modelled (the
manager guarantees the references and allocation is assumed to succeed). -/
def ForwardStreamTask.execute (t : ForwardStreamTask) (pull push : BaseStream) :
    ForwardStreamTask × BaseStream × BaseStream :=
  if t.is_running = false then (t, pull, push)
  else if pull.state ≠ StreamState.CONNECTED ∨ push.state ≠ StreamState.CONNECTED then
    (t, pull, push)
  else
    match getFrame pull with
    | (none, pull1) => (t, pull1, push)
    | (some f, pull1) =>
      if t.zero_copy_mode = true then
        match sendFrame push f with
        | (true, push1) => ({ t with frame_count := t.frame_count + 1 }, pull1, push1)
        | (false, push1) => (t, pull1, push1)
      else
        let fCopy := f
        match sendFrame push fCopy with
        | (true, push1) => ({ t with frame_count := t.frame_count + 1 }, pull1, push1)
        | (false, push1) => (t, pull1, push1)

/-- The atomic operations of the BaseStream family, for stating which of them
can zero the reconnect counter. -/
inductive StreamOp
  | opStart
  | opPushStart
  | opStop
  | opPushStop
  | opBaseStop
  | opReconnect
  | opSetError (msg : String)
  | opInit (o : InitOutcome)
  | opPushInit (o : PushInitOutcome)
  | opQueuePush (f : Nat)
  | opFlushPush (f : Nat)
  | opGetFrame
  | opSendFrame (f : Nat)
deriving DecidableEq

/-- Effect of each BaseStream-family operation on the stream record. -/
def applyOp : StreamOp → BaseStream → BaseStream
  | .opStart, s => (pullStart s).2
  | .opPushStart, s => (pushStart s).2
  | .opStop, s => pullStop s
  | .opPushStop, s => pushStop s
  | .opBaseStop, s => baseStop s
  | .opReconnect, s => (reconnect s).2
  | .opSetError msg, s => setError s msg
  | .opInit o, s => (initStream o s).2
  | .opPushInit o, s => (pushInitStream o s).2
  | .opQueuePush f, s => pullQueuePush s f
  | .opFlushPush f, s => pullFlushPush s f
  | .opGetFrame, s => (getFrame s).2
  | .opSendFrame f, s => (sendFrame s f).2

/-- A push-role, standard-mode (low_latency off) configuration with queue
capacity 1, default reconnect policy. -/
def cfgStd1 : StreamConfig :=
  { type := StreamType.PUSH, max_reconnect_attempts := 5, reconnect_delay_ms := 2000,
    auto_reconnect := true, low_latency := false, max_queue_size := 1 }

/-- A running, CONNECTED standard-mode push stream whose queue already holds
one frame, i.e. is exactly at its capacity of 1. -/
def pushStd1 : BaseStream :=
  { config := cfgStd1, state := StreamState.CONNECTED, running := true, error_message := "",
    reconnect_count := 0, frame_queue := [7], threads_spawned := 1 }

/-- A pull-role low-latency configuration with queue capacity 3. -/
def cfgLL3 : StreamConfig :=
  { type := StreamType.PULL, max_reconnect_attempts := 5, reconnect_delay_ms := 2000,
    auto_reconnect := true, low_latency := true, max_queue_size := 3 }

/-- A fresh low-latency pull stream that has not been started. -/
def pullLL : BaseStream :=
  { config := cfgLL3, state := StreamState.INIT, running := false, error_message := "",
    reconnect_count := 0, frame_queue := [], threads_spawned := 0 }

/-- A pull-role processor configuration allowing 5 reconnect attempts. -/
def procCfg : ProcConfig :=
  { type := StreamType.PULL, maxReconnects := 5, reconnectDelay := 2000 }

/-- A stopped processor that had accumulated 2 reconnect attempts. -/
def procStopped2 : StreamProcessor :=
  { config := procCfg, status := StreamStatus.STOPPED, running := false, reconnectCount := 2 }

/-- A freshly constructed processor: DISCONNECTED, not running, counter 0. -/
def procFresh : StreamProcessor :=
  { config := procCfg, status := StreamStatus.DISCONNECTED, running := false, reconnectCount := 0 }

/-- A processor that is currently running and CONNECTED. -/
def procRunning : StreamProcessor :=
  { config := procCfg, status := StreamStatus.CONNECTED, running := true, reconnectCount := 0 }

/-- Claim C1: the spec says dequeue always selects the highest-priority task,
HIGH before NORMAL before LOW.  The comparator TaskWrapper::operator< returns
`priority < other.priority` on the underlying enum values HIGH = 0, NORMAL = 1,
LOW = 2, and std::priority_queue pops the greatest element, so LOW is on top:
with tasks of priorities HIGH, NORMAL, LOW submitted in that order to a
single-worker pool, the worker drains them in the order LOW, NORMAL, HIGH, and
with HIGH and LOW queued the dequeue selects LOW — the opposite of the claim
and of the intent stated in the code comments. -/
theorem claim_C1_pool_dequeues_low_first :
    pqDrain [⟨TaskPriority.HIGH, 1⟩, ⟨TaskPriority.NORMAL, 2⟩, ⟨TaskPriority.LOW, 3⟩] =
      [⟨TaskPriority.LOW, 3⟩, ⟨TaskPriority.NORMAL, 2⟩, ⟨TaskPriority.HIGH, 1⟩] ∧
    workerDequeue [⟨TaskPriority.HIGH, 1⟩, ⟨TaskPriority.LOW, 3⟩] =
      (some ⟨TaskPriority.LOW, 3⟩, [⟨TaskPriority.HIGH, 1⟩]) := by
  decide

/-- Claim C2, counterexample: a standard-mode push stream at its capacity of 1
accepts sendFrame without evicting anything, so the queue length becomes 2 and
exceeds max_queue_size. -/
theorem claim_C2_counterexample :
    pushStd1.frame_queue.length ≤ pushStd1.config.max_queue_size ∧
    (sendFrame pushStd1 9).1 = true ∧
    (sendFrame pushStd1 9).2.frame_queue.length = 2 ∧
    ¬ (sendFrame pushStd1 9).2.frame_queue.length ≤ pushStd1.config.max_queue_size := by
  decide

/-- Claim C2, amended: the capacity bound max_queue_size (assumed at least 1)
is preserved by the capacity-checked pull main-loop enqueue, by getFrame, by
closeStream, and by sendFrame in low-latency mode; standard-mode sendFrame
(and the pull decoder-flush drain) enqueue without any capacity check and can
exceed the bound. -/
theorem claim_C2_amended_queue_bounded (s : BaseStream) (f : Nat)
    (hcap : 1 ≤ s.config.max_queue_size)
    (hq : s.frame_queue.length ≤ s.config.max_queue_size) :
    (pullQueuePush s f).frame_queue.length ≤ s.config.max_queue_size ∧
    ((getFrame s).2).frame_queue.length ≤ s.config.max_queue_size ∧
    (closeStream s).frame_queue.length ≤ s.config.max_queue_size ∧
    (s.config.low_latency = true →
      ((sendFrame s f).2).frame_queue.length ≤ s.config.max_queue_size) := by
  refine ⟨?_, ?_, ?_, ?_⟩
  · unfold pullQueuePush
    by_cases hr : s.running = true
    · by_cases hfull : s.config.max_queue_size ≤ s.frame_queue.length
      · by_cases hll : s.config.low_latency = true
        · simp [hr, hfull, hll, hcap]
        · simp [hr, hfull, hll, List.length_tail]
          omega
      · simp [hr, hfull]
        omega
    · simp [hr, hq]
  · unfold getFrame
    match hq2 : s.frame_queue with
    | [] => simp [hq2]
    | f2 :: rest =>
      simp only []
      have := hq
      rw [hq2] at this
      simp at this ⊢
      omega
  · simp [closeStream]
  · intro hll
    unfold sendFrame
    by_cases hrej : s.running = false ∨ s.state ≠ StreamState.CONNECTED
    · simp [hrej, hq]
    · simp only [hrej, if_false]
      by_cases hfull : s.config.max_queue_size ≤ s.frame_queue.length
      · simp [hll, hfull, hcap]
      · simp [hll, hfull]
        omega

/-- Claim C2, amended, witness at the stream pullLL with capacity 3. -/
theorem claim_C2_amended_witness :
    1 ≤ pullLL.config.max_queue_size ∧
    pullLL.frame_queue.length ≤ pullLL.config.max_queue_size ∧
    ((pullQueuePush pullLL 4).frame_queue.length ≤ pullLL.config.max_queue_size ∧
     ((getFrame pullLL).2).frame_queue.length ≤ pullLL.config.max_queue_size ∧
     (closeStream pullLL).frame_queue.length ≤ pullLL.config.max_queue_size ∧
     (pullLL.config.low_latency = true →
       ((sendFrame pullLL 4).2).frame_queue.length ≤ pullLL.config.max_queue_size)) :=
  ⟨by decide, by decide, claim_C2_amended_queue_bounded pullLL 4 (by decide) (by decide)⟩

/-- Claim C3, counterexample: for a standard-mode push stream at capacity
(capacity 1, queue [7]), the claim demands FIFO eviction of the single oldest
frame so that sendFrame 9 leaves [9]; the code evicts nothing and leaves
[7, 9]. -/
theorem claim_C3_counterexample :
    pushStd1.frame_queue.length = pushStd1.config.max_queue_size ∧
    (sendFrame pushStd1 9).2.frame_queue = [7, 9] ∧
    (sendFrame pushStd1 9).2.frame_queue ≠ pushStd1.frame_queue.tail ++ [9] := by
  decide

/-- Claim C3, amended: at capacity, the pull main-loop enqueue behaves exactly
as the claim states in both modes (low-latency keeps only the newest frame,
standard mode drops exactly the oldest and preserves the order of the rest),
and push-stream sendFrame does so in low-latency mode; standard-mode sendFrame,
however, performs no eviction and appends the new frame to the full queue. -/
theorem claim_C3_amended_overflow (s : BaseStream) (f : Nat)
    (hfull : s.frame_queue.length = s.config.max_queue_size)
    (hrun : s.running = true) :
    (s.config.low_latency = true → (pullQueuePush s f).frame_queue = [f]) ∧
    (s.config.low_latency = false →
      (pullQueuePush s f).frame_queue = s.frame_queue.tail ++ [f]) ∧
    (s.state = StreamState.CONNECTED →
      (s.config.low_latency = true → (sendFrame s f).2.frame_queue = [f]) ∧
      (s.config.low_latency = false →
        (sendFrame s f).2.frame_queue = s.frame_queue ++ [f])) := by
  refine ⟨?_, ?_, ?_⟩
  · intro hll
    simp [pullQueuePush, hrun, hll, hfull.ge]
  · intro hll
    simp [pullQueuePush, hrun, hll, hfull.ge]
  · intro hconn
    constructor
    · intro hll
      simp [sendFrame, hrun, hconn, hll, hfull.ge]
    · intro hll
      simp [sendFrame, hrun, hconn, hll]

/-- Claim C3, amended, witness at the standard-mode push stream pushStd1 (for
the pull side the relevant hypotheses are the same). -/
theorem claim_C3_amended_witness :
    pushStd1.frame_queue.length = pushStd1.config.max_queue_size ∧
    pushStd1.running = true ∧
    ((pushStd1.config.low_latency = true → (pullQueuePush pushStd1 9).frame_queue = [9]) ∧
     (pushStd1.config.low_latency = false →
       (pullQueuePush pushStd1 9).frame_queue = pushStd1.frame_queue.tail ++ [9]) ∧
     (pushStd1.state = StreamState.CONNECTED →
       (pushStd1.config.low_latency = true → (sendFrame pushStd1 9).2.frame_queue = [9]) ∧
       (pushStd1.config.low_latency = false →
         (sendFrame pushStd1 9).2.frame_queue = pushStd1.frame_queue ++ [9]))) :=
  ⟨by decide, by decide, claim_C3_amended_overflow pushStd1 9 (by decide) (by decide)⟩

/-- Claim C4, counterexample: StreamProcessor::start zeroes the reconnect
counter unconditionally on entry, before any connection succeeds.  Starting a
stopped processor whose counter is 2 with a failing openInput leaves the
counter 0 and the status ERROR — the counter was reset without the state
machine ever reaching CONNECTED. -/
theorem claim_C4_counterexample :
    procStopped2.reconnectCount ≠ 0 ∧
    (StreamProcessor.start false false procStopped2).2.reconnectCount = 0 ∧
    (StreamProcessor.start false false procStopped2).2.status ≠ StreamStatus.CONNECTED := by
  decide

/-- Claim C4, amended: within the BaseStream family the claim holds — an
operation zeroes a non-zero reconnect counter exactly when it is the successful
initStream completion (pull or push), which is also the transition that reaches
CONNECTED after passing through CONNECTING; StreamProcessor::start, however,
zeroes the counter unconditionally on entry (status CONNECTING), even when the
connect attempt then fails. -/
theorem claim_C4_amended_reset_iff (op : StreamOp) (s : BaseStream)
    (h : s.reconnect_count ≠ 0) :
    (applyOp op s).reconnect_count = 0 ↔
      ((op = StreamOp.opInit InitOutcome.success ∨
        op = StreamOp.opPushInit PushInitOutcome.success) ∧
       (applyOp op s).state = StreamState.CONNECTED) := by
  cases op with
  | opStart =>
    simp only [applyOp, pullStart]
    split <;> simp [h]
  | opPushStart =>
    simp only [applyOp, pushStart]
    split <;> simp [h]
  | opStop =>
    simp only [applyOp, pullStop]
    split <;> simp [baseStop, closeStream, setState, h]
  | opPushStop =>
    simp only [applyOp, pushStop]
    split <;> simp [baseStop, closeStream, setState, h]
  | opBaseStop =>
    simp [applyOp, baseStop, setState, h]
  | opReconnect =>
    simp only [applyOp, reconnect]
    split
    · simp [h]
    · split <;> simp [setError, setState, h]
  | opSetError msg =>
    simp [applyOp, setError, setState, h]
  | opInit o =>
    cases o <;>
      simp [applyOp, initStream, setError, setState, resetReconnectCount, h]
  | opPushInit o =>
    cases o <;>
      simp [applyOp, pushInitStream, setError, setState, resetReconnectCount, h]
  | opQueuePush f =>
    simp only [applyOp, pullQueuePush]
    split <;> simp [h]
  | opFlushPush f =>
    simp only [applyOp, pullFlushPush]
    split <;> simp [h]
  | opGetFrame =>
    simp only [applyOp, getFrame]
    rcases hq : s.frame_queue with _ | ⟨f, rest⟩ <;> simp [h]
  | opSendFrame f =>
    simp only [applyOp, sendFrame]
    split <;> simp [h]

/-- Claim C4, amended, witness: applying the iff to the successful pull
initStream on a stream with counter 1 and, implicitly, reading off both
directions at that instance. -/
theorem claim_C4_amended_witness :
    ({ pushStd1 with reconnect_count := 1 } : BaseStream).reconnect_count ≠ 0 ∧
    ((applyOp (StreamOp.opInit InitOutcome.success)
        { pushStd1 with reconnect_count := 1 }).reconnect_count = 0 ↔
      ((StreamOp.opInit InitOutcome.success = StreamOp.opInit InitOutcome.success ∨
        StreamOp.opInit InitOutcome.success = StreamOp.opPushInit PushInitOutcome.success) ∧
       (applyOp (StreamOp.opInit InitOutcome.success)
          { pushStd1 with reconnect_count := 1 }).state = StreamState.CONNECTED)) :=
  ⟨by decide,
   claim_C4_amended_reset_iff (StreamOp.opInit InitOutcome.success)
     { pushStd1 with reconnect_count := 1 } (by decide)⟩

/-- Claim C5, counterexample: a freshly constructed StreamProcessor is
DISCONNECTED (not STOPPED), not running, with counter 0 below the maximum, so
the claim requires handleReconnect to increment the counter and move to
RECONNECTING; the code instead rejects it (the guard tests the running flag,
not the STOPPED state), setting the status to STOPPED with the counter
unchanged. -/
theorem claim_C5_counterexample :
    procFresh.status ≠ StreamStatus.STOPPED ∧
    procFresh.reconnectCount < procFresh.config.maxReconnects ∧
    (StreamProcessor.handleReconnect true true procFresh).1 = false ∧
    (StreamProcessor.handleReconnect true true procFresh).2.status = StreamStatus.STOPPED ∧
    (StreamProcessor.handleReconnect true true procFresh).2.reconnectCount = 0 := by
  decide

/-- Claim C5, amended: BaseStream::reconnect behaves exactly as claimed —
rejected when STOPPED, terminal ERROR with the counter unchanged once the bound
is reached, otherwise counter + 1 and RECONNECTING.  For
StreamProcessor::handleReconnect the rejection guard is the running flag rather
than the STOPPED state: whenever the processor is not running, or its counter
has reached maxReconnects, the call fails and the status becomes STOPPED;
otherwise the counter is incremented by exactly 1 and the status ends at
RECONNECTING (the nested start() rejects because the running flag is still
set). -/
theorem claim_C5_amended_reconnect (s : BaseStream) (p : StreamProcessor) (io oo : Bool) :
    (s.state = StreamState.STOPPED → reconnect s = (false, s)) ∧
    (s.state ≠ StreamState.STOPPED →
      s.config.max_reconnect_attempts ≤ s.reconnect_count →
      (reconnect s).1 = false ∧ (reconnect s).2.state = StreamState.ERROR ∧
      (reconnect s).2.reconnect_count = s.reconnect_count) ∧
    (s.state ≠ StreamState.STOPPED →
      s.reconnect_count < s.config.max_reconnect_attempts →
      (reconnect s).1 = true ∧ (reconnect s).2.state = StreamState.RECONNECTING ∧
      (reconnect s).2.reconnect_count = s.reconnect_count + 1) ∧
    (p.running = true → p.reconnectCount < p.config.maxReconnects →
      (StreamProcessor.handleReconnect io oo p).1 = false ∧
      (StreamProcessor.handleReconnect io oo p).2.status = StreamStatus.RECONNECTING ∧
      (StreamProcessor.handleReconnect io oo p).2.reconnectCount = p.reconnectCount + 1) ∧
    ((p.running = false ∨ p.config.maxReconnects ≤ p.reconnectCount) →
      StreamProcessor.handleReconnect io oo p =
        (false, { p with status := StreamStatus.STOPPED, running := false })) := by
  refine ⟨?_, ?_, ?_, ?_, ?_⟩
  · intro hst
    simp [reconnect, hst]
  · intro hst hmax
    simp [reconnect, hst, hmax, setError, setState]
  · intro hst hlt
    simp [reconnect, hst, Nat.not_le.mpr hlt, setState]
  · intro hrun hlt
    have hguard : ¬ (p.running = false ∨ p.config.maxReconnects ≤ p.reconnectCount) := by
      simp [hrun, Nat.not_le.mpr hlt]
    simp [StreamProcessor.handleReconnect, hguard, StreamProcessor.start,
      StreamProcessor.setStatus, hrun, Nat.not_le.mpr hlt]
  · intro hguard
    simp [StreamProcessor.handleReconnect, hguard, StreamProcessor.setStatus]

/-- Claim C5, amended, witness at a CONNECTED stream with counter 0 and a
running CONNECTED processor. -/
theorem claim_C5_amended_witness :
    (pushStd1.state ≠ StreamState.STOPPED ∧
     pushStd1.reconnect_count < pushStd1.config.max_reconnect_attempts ∧
     procRunning.running = true ∧
     procRunning.reconnectCount < procRunning.config.maxReconnects) ∧
    ((reconnect pushStd1).1 = true ∧
     (reconnect pushStd1).2.state = StreamState.RECONNECTING ∧
     (reconnect pushStd1).2.reconnect_count = pushStd1.reconnect_count + 1) ∧
    ((StreamProcessor.handleReconnect true true procRunning).1 = false ∧
     (StreamProcessor.handleReconnect true true procRunning).2.status =
       StreamStatus.RECONNECTING ∧
     (StreamProcessor.handleReconnect true true procRunning).2.reconnectCount =
       procRunning.reconnectCount + 1) :=
  ⟨⟨by decide, by decide, by decide, by decide⟩,
   (claim_C5_amended_reconnect pushStd1 procRunning true true).2.2.1 (by decide) (by decide),
   (claim_C5_amended_reconnect pushStd1 procRunning true true).2.2.2.1 (by decide) (by decide)⟩

/-- Claim C6, counterexample: StreamProcessor::start on an already-running
processor returns false (a rejection logged as a warning), not success as the
claim states. -/
theorem claim_C6_counterexample :
    procRunning.running = true ∧
    (StreamProcessor.start true true procRunning).1 = false := by
  decide

/-- Claim C6, amended: PullStream::start and PushStream::start on an
already-running stream return true, change nothing and spawn no second thread;
StreamProcessor::start on a running processor likewise changes nothing and
spawns nothing, but returns false rather than success. -/
theorem claim_C6_amended_start_noop (s : BaseStream) (p : StreamProcessor) (io oo : Bool)
    (hs : s.running = true) (hp : p.running = true) :
    pullStart s = (true, s) ∧ pushStart s = (true, s) ∧
    (pullStart s).2.threads_spawned = s.threads_spawned ∧
    (pushStart s).2.threads_spawned = s.threads_spawned ∧
    StreamProcessor.start io oo p = (false, p) := by
  simp [pullStart, pushStart, StreamProcessor.start, hs, hp]

/-- Claim C6, amended, witness at a running stream and a running processor. -/
theorem claim_C6_amended_witness :
    (pushStd1.running = true ∧ procRunning.running = true) ∧
    (pullStart pushStd1 = (true, pushStd1) ∧ pushStart pushStd1 = (true, pushStd1) ∧
     (pullStart pushStd1).2.threads_spawned = pushStd1.threads_spawned ∧
     (pushStart pushStd1).2.threads_spawned = pushStd1.threads_spawned ∧
     StreamProcessor.start false false procRunning = (false, procRunning)) :=
  ⟨⟨by decide, by decide⟩,
   claim_C6_amended_start_noop pushStd1 procRunning false false (by decide) (by decide)⟩

/-- Claim C7: stop() is idempotent.  A second call (running flag already
cleared) returns immediately and changes nothing; the first call on a running
stream clears the running flag, empties the frame queue after joining the
dedicated thread, and sets the state to STOPPED; BaseStream::stop is
idempotent as well. -/
theorem claim_C7_stop_idempotent (s : BaseStream) :
    pullStop (pullStop s) = pullStop s ∧
    pushStop (pushStop s) = pushStop s ∧
    baseStop (baseStop s) = baseStop s ∧
    (s.running = false → pullStop s = s ∧ pushStop s = s) ∧
    (s.running = true →
      pullStop s =
        { s with running := false, frame_queue := [], state := StreamState.STOPPED } ∧
      pushStop s =
        { s with running := false, frame_queue := [], state := StreamState.STOPPED }) := by
  by_cases hr : s.running = true
  · refine ⟨?_, ?_, ?_, ?_, ?_⟩
    · simp [pullStop, hr, baseStop, closeStream, setState]
    · simp [pushStop, hr, baseStop, closeStream, setState]
    · simp [baseStop, setState]
    · intro hf; rw [hr] at hf; exact absurd hf (by decide)
    · intro _
      constructor <;> simp [pullStop, pushStop, hr, baseStop, closeStream, setState]
  · have hf : s.running = false := by
      revert hr; rcases s.running with _ | _ <;> simp
    refine ⟨?_, ?_, ?_, ?_, ?_⟩
    · simp [pullStop, hf]
    · simp [pushStop, hf]
    · simp [baseStop, setState]
    · intro _; simp [pullStop, pushStop, hf]
    · intro ht; rw [ht] at hf; exact absurd hf (by decide)

/-- Claim C7, witness at the running stream pushStd1 (no hypotheses at top
level; the inner implications instantiated at a running stream). -/
theorem claim_C7_witness :
    pullStop (pullStop pushStd1) = pullStop pushStd1 ∧
    (pushStd1.running = true →
      pullStop pushStd1 =
        { pushStd1 with
            running := false, frame_queue := [], state := StreamState.STOPPED } ∧
      pushStop pushStd1 =
        { pushStd1 with
            running := false, frame_queue := [], state := StreamState.STOPPED }) :=
  ⟨(claim_C7_stop_idempotent pushStd1).1, (claim_C7_stop_idempotent pushStd1).2.2.2.2⟩

/-- A pull-role, standard-mode configuration with queue capacity 5. -/
def cfgPullStd : StreamConfig :=
  { type := StreamType.PULL, max_reconnect_attempts := 5, reconnect_delay_ms := 2000,
    auto_reconnect := true, low_latency := false, max_queue_size := 5 }

/-- A running, CONNECTED standard-mode pull stream holding one queued frame. -/
def pullConn : BaseStream :=
  { config := cfgPullStd, state := StreamState.CONNECTED, running := true,
    error_message := "", reconnect_count := 0, frame_queue := [5], threads_spawned := 1 }

/-- A running forward task in zero-copy mode that has relayed no frame yet. -/
def fwdTask : ForwardStreamTask :=
  { task_id := 1, is_running := true, frame_count := 0, zero_copy_mode := true }

/-- Claim C8: after the pool has been stopped, enqueue fails with the
runtime error delivered to the submitting caller and the task queue is left
untouched; sendFrame on a stream that is not running or not CONNECTED is
rejected without enqueueing the frame. -/
theorem claim_C8_rejected_after_stop (q : List TaskWrapper) (w : TaskWrapper)
    (s : BaseStream) (f : Nat)
    (hs : s.running = false ∨ s.state ≠ StreamState.CONNECTED) :
    ThreadPool.enqueue true q w = (Except.error "Enqueue on stopped ThreadPool", q) ∧
    sendFrame s f = (false, s) := by
  constructor
  · simp [ThreadPool.enqueue]
  · unfold sendFrame
    rw [if_pos hs]

/-- Claim C8, witness at a concrete queue and the stopped stream pullLL. -/
theorem claim_C8_witness :
    (pullLL.running = false ∨ pullLL.state ≠ StreamState.CONNECTED) ∧
    (ThreadPool.enqueue true [⟨TaskPriority.HIGH, 1⟩] ⟨TaskPriority.LOW, 2⟩ =
       (Except.error "Enqueue on stopped ThreadPool", [⟨TaskPriority.HIGH, 1⟩]) ∧
     sendFrame pullLL 3 = (false, pullLL)) :=
  ⟨Or.inl (by decide),
   claim_C8_rejected_after_stop [⟨TaskPriority.HIGH, 1⟩] ⟨TaskPriority.LOW, 2⟩ pullLL 3
     (Or.inl (by decide))⟩

/-- Claim C9: an execution tick of the forward task is a no-op when the task is
not running or either stream is not CONNECTED; when no frame is available
within the timeout nothing changes (not an error); when a frame is popped and
the push stream accepts it, frame_count is incremented by exactly 1 — the
statement quantifies over the task, so it covers zero-copy and copy mode
alike. -/
theorem claim_C9_forward_tick (t : ForwardStreamTask) (pull push : BaseStream)
    (f : Nat) (rest : List Nat) :
    (t.is_running = false → ForwardStreamTask.execute t pull push = (t, pull, push)) ∧
    ((pull.state ≠ StreamState.CONNECTED ∨ push.state ≠ StreamState.CONNECTED) →
      ForwardStreamTask.execute t pull push = (t, pull, push)) ∧
    (t.is_running = true → pull.state = StreamState.CONNECTED →
      push.state = StreamState.CONNECTED →
      (pull.frame_queue = [] →
        ForwardStreamTask.execute t pull push = (t, pull, push)) ∧
      (pull.frame_queue = f :: rest → push.running = true →
        (ForwardStreamTask.execute t pull push).1.frame_count = t.frame_count + 1)) := by
  refine ⟨?_, ?_, ?_⟩
  · intro h
    simp [ForwardStreamTask.execute, h]
  · intro h
    unfold ForwardStreamTask.execute
    by_cases hr : t.is_running = false
    · rw [if_pos hr]
    · rw [if_neg hr, if_pos h]
  · intro hr hc1 hc2
    constructor
    · intro hq
      simp [ForwardStreamTask.execute, hr, hc1, hc2, getFrame, hq]
    · intro hq hpr
      have hsend : ¬ (push.running = false ∨ push.state ≠ StreamState.CONNECTED) := by
        simp [hpr, hc2]
      by_cases hz : t.zero_copy_mode = true <;>
        simp [ForwardStreamTask.execute, hr, hc1, hc2, getFrame, hq, sendFrame, hsend, hz, hpr]

/-- Claim C9, witness: a running zero-copy task relaying one frame from a
CONNECTED pull stream with a queued frame to a CONNECTED running push
stream. -/
theorem claim_C9_witness :
    (fwdTask.is_running = true ∧ pullConn.state = StreamState.CONNECTED ∧
     pushStd1.state = StreamState.CONNECTED ∧ pullConn.frame_queue = [5] ∧
     pushStd1.running = true) ∧
    (ForwardStreamTask.execute fwdTask pullConn pushStd1).1.frame_count =
      fwdTask.frame_count + 1 :=
  ⟨⟨by decide, by decide, by decide, by decide, by decide⟩,
   ((claim_C9_forward_tick fwdTask pullConn pushStd1 5 []).2.2 (by decide) (by decide)
     (by decide)).2 (by decide) (by decide)⟩

/-- Claim C10: for a low-latency configuration, start() returns true and spawns
the dedicated thread, and that thread returns at its first statement — before
initStream, before any state change and before any frame is produced or
consumed — so the whole thread body is the identity on the stream: it never
enters CONNECTING or CONNECTED and leaves the queue untouched, for every
possible init outcome and event sequence. -/
theorem claim_C10_low_latency_thread (s : BaseStream) (o : InitOutcome)
    (po : PushInitOutcome) (evs : List ReadEvent) (pevs : List PushEvent) (fl : List Nat)
    (hll : s.config.low_latency = true) :
    (s.running = false →
      pullStart s =
        (true, { s with running := true, threads_spawned := s.threads_spawned + 1 }) ∧
      pushStart s =
        (true, { s with running := true, threads_spawned := s.threads_spawned + 1 })) ∧
    pullStreamThread o evs fl s = s ∧
    pushStreamThread po pevs s = s := by
  refine ⟨?_, ?_, ?_⟩
  · intro hr
    constructor <;> simp [pullStart, pushStart, hr]
  · simp [pullStreamThread, hll]
  · simp [pushStreamThread, hll]

/-- Claim C10, witness at the fresh low-latency stream pullLL. -/
theorem claim_C10_witness :
    (pullLL.config.low_latency = true ∧ pullLL.running = false) ∧
    (pullStart pullLL =
       (true, { pullLL with running := true, threads_spawned := pullLL.threads_spawned + 1 }) ∧
     pushStart pullLL =
       (true, { pullLL with running := true, threads_spawned := pullLL.threads_spawned + 1 })) ∧
    pullStreamThread InitOutcome.success [ReadEvent.eof] [2] pullLL = pullLL ∧
    pushStreamThread PushInitOutcome.success [PushEvent.write_ok] pullLL = pullLL :=
  ⟨⟨by decide, by decide⟩,
   (claim_C10_low_latency_thread pullLL InitOutcome.success PushInitOutcome.success
      [ReadEvent.eof] [PushEvent.write_ok] [2] (by decide)).1 (by decide),
   (claim_C10_low_latency_thread pullLL InitOutcome.success PushInitOutcome.success
      [ReadEvent.eof] [PushEvent.write_ok] [2] (by decide)).2.1,
   (claim_C10_low_latency_thread pullLL InitOutcome.success PushInitOutcome.success
      [ReadEvent.eof] [PushEvent.write_ok] [2] (by decide)).2.2⟩
